import Mathlib

/-
Verification of the packaging manifest `src/bindings/python/setup.py`.

The manifest is a straight-line Python script: one import statement and a
single call to `setup(...)`.  Evaluation of the call arguments, in source
order, performs exactly two effectful computations:

  * `packages=find_packages()` — inspects which package directories exist;
  * `long_description=open("README.md").read()` — opens README.md for
    reading (raising if it is absent or unreadable) and reads all of it.

We embed a build environment as a `FileSystem` (textual file contents by
path, plus the directory listing that `find_packages` returns), and the
script evaluation as a function from a `FileSystem` to the argument record
passed to `setup` (or an error), together with the trace of filesystem
operations performed.  A separate small deep embedding of the statement
structure of the script supports the purely syntactic claims (statement
counts, absence of control flow).
-/

/-- A build environment: textual contents of readable files by path
(`none` models a file that is absent or unreadable as text), and the list
of package directories that `find_packages()` discovers. -/
structure FileSystem where
  files : String → Option String
  pkgDirs : List String

/-- Filesystem operations a Python script can perform.  `openRead` is
`open(p)` in the default read mode; `openWrite` is `open(p, "w")`, which
truncates the file; `readAll` is `.read()`; `writeFile` is `.write(c)`;
`closeHandle` is `.close()` (or exiting a `with` block). -/
inductive FsOp where
  | openRead (path : String)
  | openWrite (path : String)
  | readAll (path : String)
  | writeFile (path : String) (contents : String)
  | closeHandle (path : String)
deriving DecidableEq, Repr

/-- Effect of one operation on the filesystem: opening for read, reading
and closing change nothing; opening for write truncates the file to empty;
writing replaces its contents. -/
def applyOp (fs : FileSystem) : FsOp → FileSystem
  | .openRead _ => fs
  | .openWrite p => { fs with files := fun q => if q = p then some "" else fs.files q }
  | .readAll _ => fs
  | .writeFile p c => { fs with files := fun q => if q = p then some c else fs.files q }
  | .closeHandle _ => fs

/-- Run a trace of operations over a filesystem. -/
def runOps (fs : FileSystem) (ops : List FsOp) : FileSystem :=
  ops.foldl applyOp fs

/-- Whether an operation can change the contents of some file. -/
def mutates : FsOp → Bool
  | .openWrite _ => true
  | .writeFile _ _ => true
  | _ => false

/-- Handles left open after a trace: an open adds a handle, a close
removes it, reads and writes through a handle leave it open. -/
def openHandlesStep (hs : List String) : FsOp → List String
  | .openRead p => hs ++ [p]
  | .openWrite p => hs ++ [p]
  | .closeHandle p => hs.erase p
  | _ => hs

/-- Handles still open at the end of a trace. -/
def openHandlesAfter (ops : List FsOp) : List String :=
  ops.foldl openHandlesStep []

/-- Number of `readAll` operations on path `p` in a trace. -/
def readCount (p : String) : List FsOp → Nat
  | [] => 0
  | .readAll q :: rest => (if q = p then 1 else 0) + readCount p rest
  | _ :: rest => readCount p rest

/-- Number of open operations (read or write mode) on path `p` in a trace. -/
def openCount (p : String) : List FsOp → Nat
  | [] => 0
  | .openRead q :: rest => (if q = p then 1 else 0) + openCount p rest
  | .openWrite q :: rest => (if q = p then 1 else 0) + openCount p rest
  | _ :: rest => openCount p rest

/-- The argument record received by `setup`, one field per keyword
argument of the call in the manifest. -/
structure SetupArgs where
  name : String
  version : String
  packages : List String
  package_data : List (String × List String)
  install_requires : List String
  author : String
  author_email : String
  description : String
  long_description : String
  long_description_content_type : String
  url : String
  classifiers : List String
  python_requires : String
deriving DecidableEq, Repr

/-- `find_packages()`: the package directories present in the build
environment. -/
def find_packages (fs : FileSystem) : List String :=
  fs.pkgDirs

/-- Outcome of evaluating the manifest: the arguments handed to `setup`
(or the raised error), and the trace of filesystem operations performed. -/
structure EvalResult where
  result : Except String SetupArgs
  ops : List FsOp

/-- Evaluation of `setup.py` over a build environment, mirroring the
source: the keyword arguments of the `setup(...)` call are evaluated in
source order; `packages` is `find_packages()`; `long_description` is
`open("README.md").read()`, which raises `FileNotFoundError` when
README.md is absent or unreadable; every other argument is a literal. -/
def evalSetupPy (fs : FileSystem) : EvalResult :=
  let packages := find_packages fs
  match fs.files "README.md" with
  | none =>
      { result := Except.error "FileNotFoundError: No such file or directory: README.md"
      , ops := [] }
  | some readme =>
      { result := Except.ok
          { name := "pubkycore"
          , version := "0.1.0"
          , packages := packages
          , package_data := [("pubkycore", ["*.so", "*.dylib", "*.dll"])]
          , install_requires := []
          , author := "Pubky"
          , author_email := ""
          , description := "Python bindings for the Pubky Mobile SDK"
          , long_description := readme
          , long_description_content_type := "text/markdown"
          , url := ""
          , classifiers :=
              [ "Programming Language :: Python :: 3"
              , "License :: OSI Approved :: MIT License"
              , "Operating System :: OS Independent" ]
          , python_requires := ">=3.6" }
      , ops := [FsOp.openRead "README.md", FsOp.readAll "README.md"] }

/-- Whether evaluation of the manifest completes without raising. -/
def evalSucceeds (fs : FileSystem) : Bool :=
  match (evalSetupPy fs).result with
  | Except.ok _ => true
  | Except.error _ => false

/-- Glob matching for the patterns used in `package_data`: a pattern
starting with a star matches any file name ending in the rest of the
pattern; any other pattern matches only itself. -/
def globMatch (pat file : String) : Bool :=
  match pat.data with
  | List.cons c rest => if c = '*' then List.isSuffixOf rest file.data else pat = file
  | List.nil => pat = file

/-- A file inside package `pkg` is included in the distribution when some
pattern declared for `pkg` in `package_data` matches it. -/
def includedByPackageData (args : SetupArgs) (pkg file : String) : Prop :=
  ∃ pats, (pkg, pats) ∈ args.package_data ∧ ∃ pat ∈ pats, globMatch pat file = true

/-
Deep embedding of the statement structure of the script, for the purely
syntactic claims.  Constructors cover the statement forms whose absence
the specification asserts (conditionals, loops, exception handlers,
assignments) alongside the two forms that actually occur (an import and
an expression statement consisting of a single call).
-/

mutual
/-- Python statement forms relevant to the manifest. -/
inductive PyStmt where
  | importFrom : String → List String → PyStmt
  | callStmt : String → PyStmt
  | assign : String → PyStmt
  | ifStmt : PyBlock → PyBlock → PyStmt
  | whileStmt : PyBlock → PyStmt
  | forStmt : PyBlock → PyStmt
  | tryStmt : PyBlock → PyBlock → PyStmt
/-- A sequence of Python statements. -/
inductive PyBlock where
  | nil : PyBlock
  | cons : PyStmt → PyBlock → PyBlock
end

/-- Syntactic counts over a script: top-level-or-nested occurrences of
calls to `setup`, conditionals, loops, exception handlers and
assignments. -/
structure StmtCounts where
  setupCalls : Nat
  conditionals : Nat
  loops : Nat
  handlers : Nat
  assigns : Nat
deriving DecidableEq, Repr

/-- Pointwise sum of syntactic counts. -/
def StmtCounts.add (a b : StmtCounts) : StmtCounts :=
  ⟨a.setupCalls + b.setupCalls, a.conditionals + b.conditionals,
   a.loops + b.loops, a.handlers + b.handlers, a.assigns + b.assigns⟩

mutual
/-- Syntactic counts of one statement, including nested blocks. -/
def countsOfStmt : PyStmt → StmtCounts
  | .importFrom _ _ => ⟨0, 0, 0, 0, 0⟩
  | .callStmt f => ⟨if f = "setup" then 1 else 0, 0, 0, 0, 0⟩
  | .assign _ => ⟨0, 0, 0, 0, 1⟩
  | .ifStmt t e => StmtCounts.add ⟨0, 1, 0, 0, 0⟩ (StmtCounts.add (countsOfBlock t) (countsOfBlock e))
  | .whileStmt b => StmtCounts.add ⟨0, 0, 1, 0, 0⟩ (countsOfBlock b)
  | .forStmt b => StmtCounts.add ⟨0, 0, 1, 0, 0⟩ (countsOfBlock b)
  | .tryStmt b h => StmtCounts.add ⟨0, 0, 0, 1, 0⟩ (StmtCounts.add (countsOfBlock b) (countsOfBlock h))
/-- Syntactic counts of a block of statements. -/
def countsOfBlock : PyBlock → StmtCounts
  | .nil => ⟨0, 0, 0, 0, 0⟩
  | .cons s r => StmtCounts.add (countsOfStmt s) (countsOfBlock r)
end

/-- Number of top-level statements of a block. -/
def blockLength : PyBlock → Nat
  | .nil => 0
  | .cons _ r => blockLength r + 1

/-- The statement structure of `setup.py`: a `from setuptools import
setup, find_packages` statement followed by one expression statement
calling `setup`. -/
def setupPyStmts : PyBlock :=
  PyBlock.cons (PyStmt.importFrom "setuptools" ["setup", "find_packages"])
    (PyBlock.cons (PyStmt.callStmt "setup") PyBlock.nil)

/-
Concrete build environments used by witnesses and the counterexample.
-/

/-- A build environment in which README.md is present and readable. -/
def fsSample : FileSystem :=
  { files := fun p => if p = "README.md" then some "# Pubky Core" else none
  , pkgDirs := ["pubkycore"] }

/-- A build environment with README.md contents distinct from
`fsSample` and no package directories. -/
def fsOther : FileSystem :=
  { files := fun p => if p = "README.md" then some "changed readme" else none
  , pkgDirs := [] }

/-- A build environment in which README.md is absent. -/
def fsNoReadme : FileSystem :=
  { files := fun _ => none
  , pkgDirs := ["pubkycore"] }

example : evalSucceeds fsSample = true := by decide
example : evalSucceeds fsNoReadme = false := by decide
example : (evalSetupPy fsSample).ops = [FsOp.openRead "README.md", FsOp.readAll "README.md"] := by decide
example : countsOfBlock setupPyStmts = ⟨1, 0, 0, 0, 0⟩ := by decide

/-- Whether an operation closes a handle. -/
def isCloseOp : FsOp → Bool
  | .closeHandle _ => true
  | _ => false

/-- The arguments `setup` receives when evaluating over `fsSample`. -/
def sampleArgs : SetupArgs :=
  { name := "pubkycore"
  , version := "0.1.0"
  , packages := ["pubkycore"]
  , package_data := [("pubkycore", ["*.so", "*.dylib", "*.dll"])]
  , install_requires := []
  , author := "Pubky"
  , author_email := ""
  , description := "Python bindings for the Pubky Mobile SDK"
  , long_description := "# Pubky Core"
  , long_description_content_type := "text/markdown"
  , url := ""
  , classifiers :=
      [ "Programming Language :: Python :: 3"
      , "License :: OSI Approved :: MIT License"
      , "Operating System :: OS Independent" ]
  , python_requires := ">=3.6" }

/-- The arguments `setup` receives when evaluating over `fsOther`. -/
def otherArgs : SetupArgs :=
  { sampleArgs with packages := [], long_description := "changed readme" }

example : (evalSetupPy fsSample).result = Except.ok sampleArgs := rfl
example : (evalSetupPy fsOther).result = Except.ok otherArgs := rfl

/-- Elimination lemma: a successful evaluation pins down every argument
field: all fields are the literals of the source except `packages`, which
is the `find_packages` result, and `long_description`, which is the text
of README.md. -/
theorem evalSetupPy_ok_elim (fs : FileSystem) (args : SetupArgs)
    (h : (evalSetupPy fs).result = Except.ok args) :
    fs.files "README.md" = some args.long_description ∧
    args.name = "pubkycore" ∧
    args.version = "0.1.0" ∧
    args.packages = fs.pkgDirs ∧
    args.package_data = [("pubkycore", ["*.so", "*.dylib", "*.dll"])] ∧
    args.install_requires = [] ∧
    args.author = "Pubky" ∧
    args.author_email = "" ∧
    args.description = "Python bindings for the Pubky Mobile SDK" ∧
    args.long_description_content_type = "text/markdown" ∧
    args.url = "" ∧
    args.classifiers =
      [ "Programming Language :: Python :: 3"
      , "License :: OSI Approved :: MIT License"
      , "Operating System :: OS Independent" ] ∧
    args.python_requires = ">=3.6" := by
  revert h
  unfold evalSetupPy
  cases hf : fs.files "README.md" with
  | none => intro h; simp at h
  | some readme =>
      intro h
      simp only [find_packages] at h
      have hr : args = _ := (Except.ok.inj h).symm
      subst hr
      simp [hf]

/-- Claim C1: evaluation of the manifest raises an error if and only if
README.md cannot be read in the build environment; when README.md exists
and is readable the evaluation completes without error, and no statement
other than the read of README.md can fail. -/
theorem evalSetupPy_succeeds_iff_readme_readable (fs : FileSystem) :
    evalSucceeds fs = (fs.files "README.md").isSome := by
  unfold evalSucceeds evalSetupPy
  cases hf : fs.files "README.md" <;> simp [hf]

/-- Claim C2: the arguments received by `setup` declare `package_data`
exactly for the package `pubkycore`, with exactly the patterns
`*.so`, `*.dylib` and `*.dll`, so every file of the `pubkycore` package
tree whose name ends in one of those three extensions is included in the
distribution. -/
theorem evalSetupPy_package_data_bundles_native_libs (fs : FileSystem) (args : SetupArgs)
    (h : (evalSetupPy fs).result = Except.ok args) :
    args.package_data = [("pubkycore", ["*.so", "*.dylib", "*.dll"])] ∧
    ∀ file : String,
      (List.isSuffixOf ".so".data file.data = true ∨
       List.isSuffixOf ".dylib".data file.data = true ∨
       List.isSuffixOf ".dll".data file.data = true) →
      includedByPackageData args "pubkycore" file := by
  obtain ⟨-, -, -, -, hpd, -, -, -, -, -, -, -, -⟩ := evalSetupPy_ok_elim fs args h
  refine ⟨hpd, ?_⟩
  intro file hfile
  refine ⟨["*.so", "*.dylib", "*.dll"], by simp [hpd], ?_⟩
  have e1 : globMatch "*.so" file = List.isSuffixOf ".so".data file.data := rfl
  have e2 : globMatch "*.dylib" file = List.isSuffixOf ".dylib".data file.data := rfl
  have e3 : globMatch "*.dll" file = List.isSuffixOf ".dll".data file.data := rfl
  rcases hfile with h1 | h2 | h3
  · exact ⟨"*.so", by simp, e1.trans h1⟩
  · exact ⟨"*.dylib", by simp, e2.trans h2⟩
  · exact ⟨"*.dll", by simp, e3.trans h3⟩

/-- Witness for claim C2 at a concrete build environment and file name. -/
theorem evalSetupPy_package_data_bundles_native_libs_witness :
    sampleArgs.package_data = [("pubkycore", ["*.so", "*.dylib", "*.dll"])] ∧
    includedByPackageData sampleArgs "pubkycore" "libpubkycore.so" :=
  ⟨(evalSetupPy_package_data_bundles_native_libs fsSample sampleArgs rfl).1,
   (evalSetupPy_package_data_bundles_native_libs fsSample sampleArgs rfl).2
     "libpubkycore.so" (Or.inl (by decide))⟩

/-- Claim C3: the metadata fields name, version, author, classifiers and
the dependency list are static constants: every successful evaluation
passes `setup` the literal values of the source, identical across any two
runs over any two build environments. -/
theorem evalSetupPy_metadata_constant (fs : FileSystem) (args : SetupArgs)
    (h : (evalSetupPy fs).result = Except.ok args) :
    (args.name = "pubkycore" ∧ args.version = "0.1.0" ∧ args.author = "Pubky" ∧
     args.install_requires = [] ∧
     args.classifiers =
       [ "Programming Language :: Python :: 3"
       , "License :: OSI Approved :: MIT License"
       , "Operating System :: OS Independent" ]) ∧
    ∀ fs2 args2, (evalSetupPy fs2).result = Except.ok args2 →
      args.name = args2.name ∧ args.version = args2.version ∧
      args.author = args2.author ∧
      args.install_requires = args2.install_requires ∧
      args.classifiers = args2.classifiers := by
  obtain ⟨-, hn, hv, -, -, hi, ha, -, -, -, -, hc, -⟩ := evalSetupPy_ok_elim fs args h
  refine ⟨⟨hn, hv, ha, hi, hc⟩, ?_⟩
  intro fs2 args2 h2
  obtain ⟨-, hn2, hv2, -, -, hi2, ha2, -, -, -, -, hc2, -⟩ := evalSetupPy_ok_elim fs2 args2 h2
  exact ⟨hn.trans hn2.symm, hv.trans hv2.symm, ha.trans ha2.symm,
         hi.trans hi2.symm, hc.trans hc2.symm⟩

/-- Witness for claim C3 at two concrete build environments. -/
theorem evalSetupPy_metadata_constant_witness :
    (sampleArgs.name = "pubkycore" ∧ sampleArgs.version = "0.1.0" ∧
     sampleArgs.author = "Pubky" ∧ sampleArgs.install_requires = [] ∧
     sampleArgs.classifiers =
       [ "Programming Language :: Python :: 3"
       , "License :: OSI Approved :: MIT License"
       , "Operating System :: OS Independent" ]) ∧
    (sampleArgs.name = otherArgs.name ∧ sampleArgs.version = otherArgs.version ∧
     sampleArgs.author = otherArgs.author ∧
     sampleArgs.install_requires = otherArgs.install_requires ∧
     sampleArgs.classifiers = otherArgs.classifiers) :=
  ⟨(evalSetupPy_metadata_constant fsSample sampleArgs rfl).1,
   (evalSetupPy_metadata_constant fsSample sampleArgs rfl).2 fsOther otherArgs rfl⟩

/-- Claim C4: the script is a single declarative call: it consists of two
top-level statements (the import and the one `setup` invocation), contains
exactly one call to `setup`, and contains no conditional, loop, exception
handler or assignment at any nesting depth. -/
theorem setupPyStmts_single_call_no_control_flow :
    countsOfBlock setupPyStmts =
      { setupCalls := 1, conditionals := 0, loops := 0, handlers := 0, assigns := 0 } ∧
    blockLength setupPyStmts = 2 := by
  exact ⟨by decide, by decide⟩

/-- Claim C5: evaluation is side-effect-free on the filesystem: no
operation of its trace mutates a file, README.md is opened only for
reading, and every file — README.md in particular — has the same contents
after evaluation as before. -/
theorem evalSetupPy_preserves_filesystem (fs : FileSystem) :
    ((evalSetupPy fs).ops.all fun op => !mutates op) = true ∧
    (∀ p, (runOps fs (evalSetupPy fs).ops).files p = fs.files p) := by
  unfold evalSetupPy
  cases hf : fs.files "README.md" <;>
    simp [hf, runOps, applyOp, mutates]

/-- Counterexample to claim C6: two build environments that differ in
README.md contents and in the package directories present both evaluate
successfully, yet `setup` receives different arguments — the
`long_description` and `packages` fields flow from the environment. -/
theorem evalSetupPy_args_vary_with_environment :
    (evalSetupPy fsSample).result = Except.ok sampleArgs ∧
    (evalSetupPy fsOther).result = Except.ok otherArgs ∧
    sampleArgs.long_description ≠ otherArgs.long_description ∧
    sampleArgs.packages ≠ otherArgs.packages :=
  ⟨rfl, rfl, by decide, by decide⟩

/-- Amended claim C6: every field passed to `setup` other than `packages`
and `long_description` is produced by static assignment with no data flow
from the environment: any two successful evaluations, over filesystems
with arbitrary contents, pass identical arguments for every such field.
`packages` and `long_description` do flow from the environment. -/
theorem evalSetupPy_env_independent_fields
    (fs1 fs2 : FileSystem) (args1 args2 : SetupArgs)
    (h1 : (evalSetupPy fs1).result = Except.ok args1)
    (h2 : (evalSetupPy fs2).result = Except.ok args2) :
    args1.name = args2.name ∧ args1.version = args2.version ∧
    args1.package_data = args2.package_data ∧
    args1.install_requires = args2.install_requires ∧
    args1.author = args2.author ∧ args1.author_email = args2.author_email ∧
    args1.description = args2.description ∧
    args1.long_description_content_type = args2.long_description_content_type ∧
    args1.url = args2.url ∧ args1.classifiers = args2.classifiers ∧
    args1.python_requires = args2.python_requires := by
  obtain ⟨-, a2, a3, -, a5, a6, a7, a8, a9, a10, a11, a12, a13⟩ :=
    evalSetupPy_ok_elim fs1 args1 h1
  obtain ⟨-, b2, b3, -, b5, b6, b7, b8, b9, b10, b11, b12, b13⟩ :=
    evalSetupPy_ok_elim fs2 args2 h2
  exact ⟨a2.trans b2.symm, a3.trans b3.symm, a5.trans b5.symm, a6.trans b6.symm,
         a7.trans b7.symm, a8.trans b8.symm, a9.trans b9.symm, a10.trans b10.symm,
         a11.trans b11.symm, a12.trans b12.symm, a13.trans b13.symm⟩

/-- Witness for the amended claim C6 at two concrete build environments. -/
theorem evalSetupPy_env_independent_fields_witness :
    sampleArgs.name = otherArgs.name ∧ sampleArgs.version = otherArgs.version ∧
    sampleArgs.package_data = otherArgs.package_data ∧
    sampleArgs.install_requires = otherArgs.install_requires ∧
    sampleArgs.author = otherArgs.author ∧
    sampleArgs.author_email = otherArgs.author_email ∧
    sampleArgs.description = otherArgs.description ∧
    sampleArgs.long_description_content_type = otherArgs.long_description_content_type ∧
    sampleArgs.url = otherArgs.url ∧ sampleArgs.classifiers = otherArgs.classifiers ∧
    sampleArgs.python_requires = otherArgs.python_requires :=
  evalSetupPy_env_independent_fields fsSample fsOther sampleArgs otherArgs rfl rfl

/-- Claim C7: in a successful evaluation README.md is opened exactly once
and read exactly once, and no input file is read more than once. -/
theorem evalSetupPy_reads_inputs_once (fs : FileSystem)
    (h : evalSucceeds fs = true) :
    (∀ p, readCount p (evalSetupPy fs).ops ≤ 1) ∧
    readCount "README.md" (evalSetupPy fs).ops = 1 ∧
    openCount "README.md" (evalSetupPy fs).ops = 1 := by
  cases hf : fs.files "README.md" with
  | none =>
      exfalso
      unfold evalSucceeds evalSetupPy at h
      rw [hf] at h
      simp at h
  | some s =>
      have hops : (evalSetupPy fs).ops =
          [FsOp.openRead "README.md", FsOp.readAll "README.md"] := by
        unfold evalSetupPy
        rw [hf]
      rw [hops]
      refine ⟨?_, by decide, by decide⟩
      intro p
      by_cases hp : ("README.md" : String) = p <;> simp [readCount, hp]

/-- Witness for claim C7 at a concrete build environment. -/
theorem evalSetupPy_reads_inputs_once_witness :
    evalSucceeds fsSample = true ∧
    ((∀ p, readCount p (evalSetupPy fsSample).ops ≤ 1) ∧
     readCount "README.md" (evalSetupPy fsSample).ops = 1 ∧
     openCount "README.md" (evalSetupPy fsSample).ops = 1) :=
  ⟨rfl, evalSetupPy_reads_inputs_once fsSample rfl⟩

/-- Claim C8: the arguments received by `setup` declare
`python_requires` equal to the string `>=3.6` and an empty
`install_requires` dependency list. -/
theorem evalSetupPy_python_requires_no_deps (fs : FileSystem) (args : SetupArgs)
    (h : (evalSetupPy fs).result = Except.ok args) :
    args.python_requires = ">=3.6" ∧ args.install_requires = [] := by
  obtain ⟨-, -, -, -, -, hi, -, -, -, -, -, -, hp⟩ := evalSetupPy_ok_elim fs args h
  exact ⟨hp, hi⟩

/-- Witness for claim C8 at a concrete build environment. -/
theorem evalSetupPy_python_requires_no_deps_witness :
    sampleArgs.python_requires = ">=3.6" ∧ sampleArgs.install_requires = [] :=
  evalSetupPy_python_requires_no_deps fsSample sampleArgs rfl

/-- Claim C9: when evaluation succeeds, the `long_description` argument
equals the entire textual content of README.md and
`long_description_content_type` is the constant `text/markdown`. -/
theorem evalSetupPy_long_description_is_readme (fs : FileSystem) (args : SetupArgs)
    (h : (evalSetupPy fs).result = Except.ok args) :
    fs.files "README.md" = some args.long_description ∧
    args.long_description_content_type = "text/markdown" := by
  obtain ⟨hr, -, -, -, -, -, -, -, -, hct, -, -, -⟩ := evalSetupPy_ok_elim fs args h
  exact ⟨hr, hct⟩

/-- Witness for claim C9 at a concrete build environment. -/
theorem evalSetupPy_long_description_is_readme_witness :
    fsSample.files "README.md" = some sampleArgs.long_description ∧
    sampleArgs.long_description_content_type = "text/markdown" :=
  evalSetupPy_long_description_is_readme fsSample sampleArgs rfl

/-- Claim C10: evaluation never closes a file handle, and after a
successful evaluation the handle opened for README.md is still open. -/
theorem evalSetupPy_readme_handle_left_open (fs : FileSystem) :
    ((evalSetupPy fs).ops.all fun op => !isCloseOp op) = true ∧
    (evalSucceeds fs = true →
      openHandlesAfter (evalSetupPy fs).ops = ["README.md"]) := by
  unfold evalSucceeds evalSetupPy
  cases hf : fs.files "README.md" <;>
    simp [hf, isCloseOp, openHandlesAfter, openHandlesStep]

/-- Witness for claim C10 at a concrete build environment. -/
theorem evalSetupPy_readme_handle_left_open_witness :
    evalSucceeds fsSample = true ∧
    (((evalSetupPy fsSample).ops.all fun op => !isCloseOp op) = true ∧
     openHandlesAfter (evalSetupPy fsSample).ops = ["README.md"]) :=
  ⟨rfl, (evalSetupPy_readme_handle_left_open fsSample).1,
        (evalSetupPy_readme_handle_left_open fsSample).2 rfl⟩
